import Mathlib

/-
Verification of the RAG context-assembly and hybrid-ranking pipeline of the
tarento-copilot backend.  The definitions below are a shallow embedding of
the Python source:

  * `QdrantService.search_similar`            (app/services/qdrant_service.py)
  * `hybrid_search_documents`                 (app/api/v1/documents.py)
  * `semantic_search_documents`               (app/api/v1/documents.py)
  * `vector_search`                           (app/api/v1/vector_search.py)
  * `retrieve_document_context`,
    `retrieve_conversation_context`,
    `build_rag_system_prompt`,
    `execute_agent_with_full_rag`             (app/api/v1/agents.py)
  * `EmbeddingService.embed_text` / `embed_texts`,
    `OpenAIEmbeddingProvider.generate_embeddings`
                                              (app/services/embedding_service.py)

Modelling conventions:
  * Python floats are modelled as rationals (ℚ); the score constants involved
    (0.5, 0.3, 0.2, 0.7, ...) combine without rounding in both systems, so
    the two arithmetics agree on every value this pipeline produces.
    Additions and multiplications inside the embedded code use the wrappers
    `pyAdd` / `pyMul`, proved equal to `+` / `*` on ℚ, so that concrete
    runs evaluate inside the kernel.
  * Python's `sorted` is a stable sort; it is modelled by the stable
    insertion sort `pySort` below (`sorted(xs, key=k, reverse=True)` is
    `pySort (fun a b => k b ≤ k a) xs`: equal keys keep their original
    relative order, exactly as in CPython).
  * Python dicts keyed by id are modelled as association lists; `d.get(k, 0)`
    becomes a lookup with default 0.  Iteration over the set union
    `set(a) | set(b)` has unspecified order in Python; it is modelled as the
    concatenation with duplicate ids removed.
  * `try/except` blocks that catch-log-and-return-empty are modelled by the
    pure value of the non-throwing path (the model has no exceptions, so the
    catch branches are dead), except where an endpoint's own handler
    transforms an inner `HTTPException`, which is modelled explicitly.
  * The Qdrant client and starlette HTTP exceptions are external libraries
    (not part of this repository); their behaviour is modelled from their
    documented contracts: a `must` field condition keeps exactly the points
    whose payload value at the key equals the match value, `score_threshold`
    drops hits scoring below it, results come back best-first, and
    `str(HTTPException)` is `"<status_code>: <detail>"`.
  * Python `str.lower` / `str.upper` are modelled per character; the texts
    involved are ASCII, where this agrees with Python.
-/

namespace Tarento

/-! ## Definitions -/

/-! ### Python-semantics helpers -/

/-- Python `x or default` for an optional integer argument: `None` and `0`
are both falsy, so both select the default. -/
def pyOrNat (v : Option Nat) (d : Nat) : Nat :=
  match v with
  | none => d
  | some 0 => d
  | some n => n

/-- Python `x or default` for an optional float argument: `None` and `0.0`
are both falsy, so both select the default. -/
def pyOrRat (v : Option ℚ) (d : ℚ) : ℚ :=
  match v with
  | none => d
  | some x => if x = 0 then d else x

/-- Python string slicing `s[:n]` (by characters). -/
def pyTake (s : String) (n : Nat) : String :=
  String.mk (s.toList.take n)

/-- Python f-string rendering of an optional string: `None` prints as
`"None"`. -/
def pyStrOpt : Option String → String
  | none => "None"
  | some s => s

/-- Python `s or default` for an optional string: `None` and `""` are both
falsy. -/
def pyOrStr (v : Option String) (d : String) : String :=
  match v with
  | none => d
  | some s => if s.isEmpty then d else s

/-- Python `s.lower()` (per character; agrees with Python on ASCII). -/
def pyLower (s : String) : String :=
  String.mk (s.toList.map Char.toLower)

/-- Python `s.upper()` (per character; agrees with Python on ASCII). -/
def pyUpper (s : String) : String :=
  String.mk (s.toList.map Char.toUpper)

/-- Python `s.strip()`. -/
def pyStrip (s : String) : String :=
  String.mk (((s.toList.dropWhile Char.isWhitespace).reverse.dropWhile
    Char.isWhitespace).reverse)

/-- Kernel-evaluable rational addition: Python `a + b` on floats, whose
values here are exact rationals.  Proved equal to `+` in `pyAdd_eq`. -/
def pyAdd (a b : ℚ) : ℚ :=
  mkRat (a.num * b.den + b.num * a.den) (a.den * b.den)

/-- Kernel-evaluable rational multiplication: Python `a * b`.  Proved equal
to `*` in `pyMul_eq`. -/
def pyMul (a b : ℚ) : ℚ :=
  mkRat (a.num * b.num) (a.den * b.den)

/-- Python `needle in haystack` on (lists of) characters. -/
def listContains : List Char → List Char → Bool
  | [], needle => needle.isEmpty
  | c :: t, needle => needle.isPrefixOf (c :: t) || listContains t needle

/-- Python substring test `needle in haystack` on strings. -/
def pyInStr (needle haystack : String) : Bool :=
  listContains haystack.toList needle.toList

/-- Stable insertion: the new element `a` goes after every already-placed
element `b` with `le b a` (so after equal elements: stability). -/
def pyInsert (le : α → α → Bool) (a : α) : List α → List α
  | [] => [a]
  | b :: l => if le b a then b :: pyInsert le a l else a :: b :: l

/-- Python's `sorted`, as a stable insertion sort the kernel can evaluate:
elements are inserted left to right. -/
def pySort (le : α → α → Bool) (l : List α) : List α :=
  l.foldl (fun acc a => pyInsert le a acc) []

/-- Association-list counterpart of Python `d.get(k, 0)`. -/
def dictGet (l : List (String × ℚ)) (k : String) : ℚ :=
  (l.lookup k).getD 0

/-! ### Qdrant configuration (app/config/qdrant_config.py) -/

def max_search_results : Nat := 10

def similarity_threshold : ℚ := mkRat 7 10

/-! ### Qdrant vector index model (app/services/qdrant_service.py)

A stored point carries the payload written by `add_document_vector`
(`document_id`, `organization_id`, `project_id`) together with the cosine
similarity `score` that the index computes for it against the current query
vector.  The query vector itself only matters through these scores, so the
model carries the scores directly. -/

structure StoredPoint where
  score : ℚ
  document_id : String
  organization_id : String
  project_id : Option String
deriving DecidableEq, Repr

/-- Payload access `point.payload.get(key)` for the keys the service reads
and filters on. -/
def payloadGet (p : StoredPoint) : String → Option String
  | "document_id" => some p.document_id
  | "organization_id" => some p.organization_id
  | "project_id" => p.project_id
  | _ => none

structure FieldCondition where
  key : String
  value : String
deriving DecidableEq, Repr

/-- Qdrant `Filter(must=[...])`. -/
structure Filter where
  must : List FieldCondition
deriving DecidableEq, Repr

/-- A point satisfies a filter iff its payload matches every `must`
condition. -/
def matchesFilter (f : Filter) (p : StoredPoint) : Bool :=
  f.must.all fun c => payloadGet p c.key == some c.value

/-- `self.client.search(...)`: the index keeps the points passing the filter
whose score is at least `score_threshold`, returns them best score first,
truncated to `limit`. -/
def clientSearch (points : List StoredPoint) (f : Filter) (limit : Nat)
    (score_threshold : ℚ) : List StoredPoint :=
  (pySort (fun a b => decide (b.score ≤ a.score))
    (points.filter fun p =>
      matchesFilter f p && decide (score_threshold ≤ p.score))).take limit

/-- One entry of the list returned by `QdrantService.search_similar`. -/
structure SearchResult where
  score : ℚ
  document_id : String
  organization_id : String
  project_id : Option String
deriving DecidableEq, Repr

/-- `QdrantService.search_similar`: applies the Python `or` defaults to
`limit` and `score_threshold`, builds the mandatory organization filter, and
formats each hit from its payload. -/
def search_similar (points : List StoredPoint) (organization_id : String)
    (limit : Option Nat) (score_threshold : Option ℚ) : List SearchResult :=
  let lim := pyOrNat limit max_search_results
  let thr := pyOrRat score_threshold similarity_threshold
  let org_filter : Filter := ⟨[⟨"organization_id", organization_id⟩]⟩
  (clientSearch points org_filter lim thr).map fun r =>
    ⟨r.score, r.document_id, r.organization_id, r.project_id⟩

/-! ### Relational records (app/models) -/

/-- A `Document` row, restricted to the fields the pipeline reads. -/
structure Document where
  id : String
  organization_id : String
  is_active : Bool
  title : Option String
  summary : Option String
  content : Option String
deriving DecidableEq, Repr

/-- A `Message` row, restricted to the fields the pipeline reads. -/
structure Message where
  id : String
  conversation_id : String
  role : String
  content : String
deriving DecidableEq, Repr

/-- A `Conversation` row, restricted to the fields the pipeline reads. -/
structure Conversation where
  id : String
  user_id : String
deriving DecidableEq, Repr

/-! ### Hybrid document search (app/api/v1/documents.py, hybrid_search_documents) -/

/-- One keyword check of the hybrid search:
`query_lower in field.lower() if field else False`. -/
def fieldMatch (query_lower : String) (field : Option String) : Bool :=
  match field with
  | none => false
  | some s => if s.isEmpty then false else pyInStr query_lower (pyLower s)

/-- The keyword score of one document: `+0.5` for a title match, `+0.3` for
a summary match, `+0.2` for a content match, starting from `0`. -/
def keywordScore (query_lower : String) (d : Document) : ℚ :=
  pyAdd (pyAdd (pyAdd 0
      (if fieldMatch query_lower d.title then mkRat 1 2 else 0))
      (if fieldMatch query_lower d.summary then mkRat 3 10 else 0))
    (if fieldMatch query_lower d.content then mkRat 1 5 else 0)

/-- The guard `if title_match or content_match or summary_match` deciding
whether a document enters `keyword_results` at all. -/
def anyKeywordMatch (query_lower : String) (d : Document) : Bool :=
  fieldMatch query_lower d.title || fieldMatch query_lower d.content ||
    fieldMatch query_lower d.summary

/-- The `keyword_results` dict: documents with at least one match, mapped to
their keyword score. -/
def keywordResults (query_lower : String) (user_documents : List Document) :
    List (String × ℚ) :=
  (user_documents.filter fun d => anyKeywordMatch query_lower d).map
    fun d => (d.id, keywordScore query_lower d)

/-- `all_doc_ids = set(semantic) | set(keyword)`: Python's set iteration
order is unspecified; modelled as the concatenation with duplicates
removed. -/
def allDocIds (semantic keyword : List (String × ℚ)) : List String :=
  (semantic.map Prod.fst ++ keyword.map Prod.fst).dedup

/-- The `combined_scores` dict:
`semantic.get(id, 0) * semantic_weight + keyword.get(id, 0) * keyword_weight`
over the union of ids. -/
def combinedScores (semantic keyword : List (String × ℚ))
    (semantic_weight keyword_weight : ℚ) : List (String × ℚ) :=
  (allDocIds semantic keyword).map fun doc_id =>
    (doc_id, pyAdd (pyMul (dictGet semantic doc_id) semantic_weight)
      (pyMul (dictGet keyword doc_id) keyword_weight))

/-- The ranking tail of `hybrid_search_documents`, starting from the active
organization documents and the semantic search hits: combine scores, filter
by `min_score`, sort by score descending (stable, no id tiebreak), keep ids
present in `doc_map`, and cut to `limit`.  Returns the ranked document
ids. -/
def hybrid_search_documents (user_documents : List Document)
    (semantic_results : List (String × ℚ)) (query : String) (lim : Nat)
    (min_score semantic_weight keyword_weight : ℚ) : List String :=
  if user_documents.isEmpty then []
  else
    let query_lower := pyLower query
    let keyword_results := keywordResults query_lower user_documents
    let combined := combinedScores semantic_results keyword_results
      semantic_weight keyword_weight
    let filtered := combined.filter fun p => decide (min_score ≤ p.2)
    let sorted_ids := (pySort (fun a b => decide (b.2 ≤ a.2)) filtered).map
      Prod.fst
    (sorted_ids.filter fun i => user_documents.any fun d => d.id == i).take lim

/-! ### Embedding service (app/services/embedding_service.py) -/

/-- `EmbeddingService.embed_text`: blank input (`not text or not
text.strip()`) returns `[]` without calling the provider; a provider failure
is modelled by the provider returning `[]`. -/
def embed_text (provider : String → List ℚ) (text : String) : List ℚ :=
  if text.isEmpty || (pyStrip text).isEmpty then [] else provider text

/-- `OpenAIEmbeddingProvider.generate_embeddings`: the provider response is
a list of (index, embedding) items in whatever order the provider chose;
the code sorts by index to restore input order and drops the indices. -/
def generate_embeddings (response_data : List (Nat × List ℚ)) :
    List (List ℚ) :=
  (pySort (fun a b => decide (a.1 ≤ b.1)) response_data).map Prod.snd

/-- `EmbeddingService.embed_texts`: an empty input list returns `[]`; blank
texts are filtered out (`if t and t.strip()`); the provider is called on the
remaining texts only. -/
def embed_texts (provider_response : List String → List (Nat × List ℚ))
    (texts : List String) : List (List ℚ) :=
  if texts.isEmpty then []
  else
    let valid_texts := texts.filter fun t =>
      !t.isEmpty && !(pyStrip t).isEmpty
    if valid_texts.isEmpty then []
    else generate_embeddings (provider_response valid_texts)

/-! ### RAG pipeline helpers (app/api/v1/agents.py) -/

/-- A retrieved context document as built by `retrieve_document_context`. -/
structure ContextDocument where
  id : String
  title : String
  preview : String
  relevance_score : ℚ
deriving DecidableEq, Repr

/-- A retrieved context message as built by
`retrieve_conversation_context`. -/
structure ContextMessage where
  id : String
  conversation_id : String
  role : String
  content : String
  relevance_score : ℚ
deriving DecidableEq, Repr

/-- `doc.content[:200] if doc.content else ""` — the stored preview. -/
def pyPreview (c : Option String) : String :=
  match c with
  | none => ""
  | some s => if s.isEmpty then "" else pyTake s 200

/-- `doc.content[:500] if doc.content else 'N/A'` — the 500-character
context text built (and later discarded) by `retrieve_document_context`. -/
def pyContentOrNA (c : Option String) : String :=
  match c with
  | none => "N/A"
  | some s => if s.isEmpty then "N/A" else pyTake s 500

/-- `retrieve_document_context`: embed the query (an empty embedding returns
an empty result without error), search the `documents` collection, resolve
hits against active documents of the organization, and build the context
document list plus a joined context text (title + first 500 content
characters per hit). -/
def retrieve_document_context (query_embedding : List ℚ)
    (points : List StoredPoint) (db : List Document)
    (organization_id : String) (lim : Nat) (score_threshold : ℚ) :
    List ContextDocument × String :=
  if query_embedding.isEmpty then ([], "")
  else
    let search_results := search_similar points organization_id (some lim)
      (some score_threshold)
    if search_results.isEmpty then ([], "")
    else
      let document_ids := search_results.map SearchResult.document_id
      let documents := db.filter fun d =>
        document_ids.contains d.id && d.organization_id == organization_id &&
          d.is_active
      let pairs := search_results.filterMap fun r =>
        (documents.find? fun d => d.id == r.document_id).map fun d => (r, d)
      (pairs.map fun p =>
        ⟨p.2.id, pyOrStr p.2.title "Untitled", pyPreview p.2.content,
          p.1.score⟩,
       String.intercalate "\n\n" (pairs.map fun p =>
        "Document: " ++ pyStrOpt p.2.title ++ "\nContent: " ++
          pyContentOrNA p.2.content))

/-- `retrieve_conversation_context`: embed the query, search the
`conversations` collection, resolve each hit to a message whose conversation
belongs to the requesting user, and build the context message list plus a
joined context text (role uppercased + first 300 content characters per
hit).  The query object filtered by `conversation_id` that the code builds
is never executed (dead code), so the parameter does not constrain the
result. -/
def retrieve_conversation_context (query_embedding : List ℚ)
    (points : List StoredPoint) (msgDb : List Message)
    (convDb : List Conversation) (conversation_id : Option String)
    (user_id organization_id : String) (lim : Nat) (score_threshold : ℚ) :
    List ContextMessage × String :=
  if query_embedding.isEmpty then ([], "")
  else
    let search_results := search_similar points organization_id (some lim)
      (some score_threshold)
    if search_results.isEmpty then ([], "")
    else
      let message_ids := search_results.map SearchResult.document_id
      let _unused_conversation_filter := conversation_id
      let messages_with_conv := message_ids.filterMap fun mid =>
        (msgDb.find? fun m => m.id == mid).bind fun m =>
          (convDb.find? fun c =>
            c.id == m.conversation_id && c.user_id == user_id).map fun _ => m
      let pairs := search_results.filterMap fun r =>
        (messages_with_conv.find? fun m => m.id == r.document_id).map
          fun m => (r, m)
      (pairs.map fun p =>
        ⟨p.2.id, p.2.conversation_id, p.2.role, p.2.content, p.1.score⟩,
       String.intercalate "\n\n" (pairs.map fun p =>
        pyUpper p.2.role ++ ": " ++ pyTake p.2.content 300))

/-- `build_rag_system_prompt`: optional generic preamble, then the non-empty
context sections with their headers, joined by blank lines, appended after
the base prompt when one is supplied. -/
def build_rag_system_prompt (base_prompt : Option String)
    (document_context message_context : String)
    (include_system_context : Bool) : String :=
  let context_parts : List String :=
    (if include_system_context then
      ["You are a helpful assistant. Use the following context to answer questions."]
     else []) ++
    (if document_context.isEmpty then []
     else ["DOCUMENT CONTEXT:\n" ++ document_context]) ++
    (if message_context.isEmpty then []
     else ["CONVERSATION CONTEXT:\n" ++ message_context])
  let context_section := String.intercalate "\n\n" context_parts
  match base_prompt with
  | some bp => if bp.isEmpty then context_section
               else bp ++ "\n\n" ++ context_section
  | none => context_section

/-- The document snippet `execute_agent_with_full_rag` assembles for the
prompt: `f"Document: {doc.title}\n{doc.preview}"` — note it uses the stored
200-character preview, not the 500-character context text returned by
`retrieve_document_context`. -/
def fullRagDocSnippet (d : ContextDocument) : String :=
  "Document: " ++ d.title ++ "\n" ++ d.preview

/-- The message snippet `execute_agent_with_full_rag` assembles for the
prompt: `f"{msg.role.upper()}: {msg.content}"` — the full message content,
untruncated. -/
def fullRagMsgSnippet (m : ContextMessage) : String :=
  pyUpper m.role ++ ": " ++ m.content

/-- The prompt-enhancement step of `execute_agent_with_full_rag`: when at
least one context item was retrieved, rebuild the two context blocks from
the retrieved items and pass them to `build_rag_system_prompt`; otherwise
leave the system prompt unchanged. -/
def assembleFullRagPrompt (context_documents : List ContextDocument)
    (context_messages : List ContextMessage) (system_prompt : Option String)
    (include_agent_system_context : Bool) : Option String :=
  if context_documents.isEmpty && context_messages.isEmpty then system_prompt
  else
    some (build_rag_system_prompt system_prompt
      (String.intercalate "\n\n" (context_documents.map fullRagDocSnippet))
      (String.intercalate "\n\n" (context_messages.map fullRagMsgSnippet))
      include_agent_system_context)

/-- Outcome of the external LLM call (`google_adk_service.execute_agent`). -/
structure GenResult where
  success : Bool
  response : String
  error : String
deriving DecidableEq, Repr

/-- A fastapi `HTTPException`, as surfaced to the endpoint caller. -/
structure HTTPException where
  status_code : Nat
  detail : String
deriving DecidableEq, Repr

/-- `str(HTTPException)` per starlette: `"<status_code>: <detail>"`. -/
def httpExceptionStr (e : HTTPException) : String :=
  toString e.status_code ++ ": " ++ e.detail

/-- Decidable equality on `Except`, so that concrete endpoint outcomes can
be checked by evaluation. -/
instance {ε α : Type u} [DecidableEq ε] [DecidableEq α] :
    DecidableEq (Except ε α) := fun x y =>
  match x, y with
  | Except.ok a, Except.ok b =>
    if h : a = b then isTrue (by rw [h])
    else isFalse (by intro he; cases he; exact h rfl)
  | Except.ok _, Except.error _ => isFalse (by intro h; cases h)
  | Except.error _, Except.ok _ => isFalse (by intro h; cases h)
  | Except.error e, Except.error f =>
    if h : e = f then isTrue (by rw [h])
    else isFalse (by intro he; cases he; exact h rfl)

/-- The successful response of `execute_agent_with_full_rag`. -/
structure FullRagResponse where
  response : String
  documents : List ContextDocument
  messages : List ContextMessage
  context_used : Bool
deriving DecidableEq, Repr

/-- `execute_agent_with_full_rag`: run the two optional retrievals (each
returns its list and a context text; the text components are discarded),
enhance the system prompt from the retrieved items, call the generator, and
either return the response with context metadata or raise
`HTTPException(400, result.error)` when generation fails. -/
def execute_agent_with_full_rag
    (retrieve_documents retrieve_conversation_flag : Bool)
    (provider : String → List ℚ) (user_input : String)
    (docPoints msgPoints : List StoredPoint)
    (docDb : List Document) (msgDb : List Message)
    (convDb : List Conversation) (conversation_id : Option String)
    (user_id organization_id : String) (system_prompt : Option String)
    (include_agent_system_context : Bool)
    (document_limit message_limit : Nat) (context_score_threshold : ℚ)
    (generate : Option String → GenResult) :
    Except HTTPException FullRagResponse :=
  let query_embedding := embed_text provider user_input
  let docres := if retrieve_documents then
      retrieve_document_context query_embedding docPoints docDb
        organization_id document_limit context_score_threshold
    else ([], "")
  let msgres := if retrieve_conversation_flag then
      retrieve_conversation_context query_embedding msgPoints msgDb convDb
        conversation_id user_id organization_id message_limit
        context_score_threshold
    else ([], "")
  let enhanced_system_prompt := assembleFullRagPrompt docres.1 msgres.1
    system_prompt include_agent_system_context
  let result := generate enhanced_system_prompt
  if result.success then
    Except.ok ⟨result.response, docres.1, msgres.1,
      !docres.1.isEmpty || !msgres.1.isEmpty⟩
  else
    Except.error ⟨400, result.error⟩

/-! ### Standalone search endpoints
(app/api/v1/documents.py semantic_search_documents,
 app/api/v1/vector_search.py vector_search)

Both are modelled as the endpoint result together with the number of vector
index searches performed during the request. -/

/-- `semantic_search_documents`: an empty query embedding raises
`HTTPException(400, "Failed to generate query embedding")` inside the `try`
block, but the endpoint's own `except Exception` handler catches it and
re-raises `HTTPException(500, f"Semantic search failed: {str(e)}")`. -/
def semantic_search_documents (query_embedding : List ℚ)
    (points : List StoredPoint) (db : List Document)
    (organization_id : String) (lim : Nat) (min_score : ℚ) :
    Except HTTPException (List Document) × Nat :=
  let inner : Except HTTPException (List Document) × Nat :=
    if query_embedding.isEmpty then
      (Except.error ⟨400, "Failed to generate query embedding"⟩, 0)
    else
      let results := search_similar points organization_id (some lim)
        (some min_score)
      let document_ids := results.map SearchResult.document_id
      let documents := db.filter fun d => document_ids.contains d.id
      let ranked_documents := results.filterMap fun r =>
        (documents.find? fun d => d.id == r.document_id).bind fun d =>
          if d.is_active then some d else none
      (Except.ok ranked_documents, 1)
  match inner.1 with
  | Except.ok v => (Except.ok v, inner.2)
  | Except.error e =>
    (Except.error ⟨500, "Semantic search failed: " ++ httpExceptionStr e⟩,
      inner.2)

/-- `vector_search`: an empty query embedding raises
`HTTPException(400, "Failed to generate query embedding")`; this endpoint's
handler re-raises `HTTPException` unchanged (`except HTTPException:
raise`). -/
def vector_search (query_embedding : List ℚ) (points : List StoredPoint)
    (organization_id : String) (lim : Option Nat)
    (score_threshold : Option ℚ) :
    Except HTTPException (List SearchResult) × Nat :=
  if query_embedding.isEmpty then
    (Except.error ⟨400, "Failed to generate query embedding"⟩, 0)
  else
    (Except.ok (search_similar points organization_id lim score_threshold), 1)

/-! ## Theorems -/

/-! ### Arithmetic and sorting lemmas -/

theorem pyAdd_eq (a b : ℚ) : pyAdd a b = a + b := by
  rw [Rat.add_def]
  unfold pyAdd mkRat
  rw [dif_neg (Nat.mul_ne_zero a.den_nz b.den_nz)]

theorem pyMul_eq (a b : ℚ) : pyMul a b = a * b := by
  rw [Rat.mul_def]
  unfold pyMul mkRat
  rw [dif_neg (Nat.mul_ne_zero a.den_nz b.den_nz)]

theorem pyInsert_perm (le : α → α → Bool) (a : α) (l : List α) :
    (pyInsert le a l).Perm (a :: l) := by
  induction l with
  | nil => exact List.Perm.refl _
  | cons b t ih =>
    by_cases h : le b a
    · simp only [pyInsert, h, if_true]
      exact (ih.cons b).trans (List.Perm.swap a b t)
    · simp only [pyInsert]
      rw [if_neg h]

theorem pySort_perm (le : α → α → Bool) (l : List α) :
    (pySort le l).Perm l := by
  have aux : ∀ (l acc : List α),
      (l.foldl (fun acc a => pyInsert le a acc) acc).Perm (acc ++ l) := by
    intro l
    induction l with
    | nil => intro acc; simp
    | cons a t ih =>
      intro acc
      have h1 := ih (pyInsert le a acc)
      have h2 : (pyInsert le a acc ++ t).Perm (acc ++ a :: t) :=
        ((pyInsert_perm le a acc).append_right t).trans List.perm_middle.symm
      exact (List.foldl_cons _ _ ▸ h1).trans h2
  simpa using aux l []

theorem pyInsert_pairwise {le : α → α → Bool}
    (htot : ∀ a b, le a b || le b a)
    (htrans : ∀ a b c, le a b = true → le b c = true → le a c = true)
    (a : α) {l : List α} (hl : l.Pairwise fun x y => le x y = true) :
    (pyInsert le a l).Pairwise fun x y => le x y = true := by
  induction l with
  | nil => simp [pyInsert]
  | cons b t ih =>
    rw [List.pairwise_cons] at hl
    obtain ⟨hb, ht⟩ := hl
    by_cases h : le b a
    · simp only [pyInsert, h, if_true]
      rw [List.pairwise_cons]
      refine ⟨?_, ih ht⟩
      intro y hy
      rcases List.mem_cons.mp ((pyInsert_perm le a t).mem_iff.mp hy) with rfl | hy
      · exact h
      · exact hb y hy
    · simp only [pyInsert]
      rw [if_neg h]
      have hab : le a b = true := by
        have := htot a b
        rw [Bool.or_eq_true] at this
        rcases this with h' | h'
        · exact h'
        · exact absurd h' h
      rw [List.pairwise_cons]
      refine ⟨?_, List.pairwise_cons.mpr ⟨hb, ht⟩⟩
      intro y hy
      rcases List.mem_cons.mp hy with rfl | hy
      · exact hab
      · exact htrans a b y hab (hb y hy)

theorem pySort_pairwise {le : α → α → Bool}
    (htot : ∀ a b, le a b || le b a)
    (htrans : ∀ a b c, le a b = true → le b c = true → le a c = true)
    (l : List α) :
    (pySort le l).Pairwise fun x y => le x y = true := by
  have aux : ∀ (l acc : List α), (acc.Pairwise fun x y => le x y = true) →
      ((l.foldl (fun acc a => pyInsert le a acc) acc).Pairwise
        fun x y => le x y = true) := by
    intro l
    induction l with
    | nil => intro acc h; simpa using h
    | cons a t ih =>
      intro acc h
      exact ih _ (pyInsert_pairwise htot htrans a h)
  exact aux l [] List.Pairwise.nil

/-- Looking up a key in an association list built by mapping a key-indexed
function over a key list. -/
theorem lookup_map_self (ids : List String) (f : String → ℚ) (k : String) :
    List.lookup k (ids.map fun i => (i, f i)) =
      if k ∈ ids then some (f k) else none := by
  induction ids with
  | nil => simp
  | cons a t ih =>
    by_cases h : k = a
    · subst h
      simp [List.lookup]
    · have hb : (k == a) = false := beq_eq_false_iff_ne.mpr h
      simp [List.lookup, hb, ih, List.mem_cons, h]

theorem lookup_eq_none_of_not_mem_keys {l : List (String × ℚ)} {k : String}
    (h : k ∉ l.map Prod.fst) : l.lookup k = none := by
  induction l with
  | nil => rfl
  | cons a t ih =>
    simp only [List.map_cons, List.mem_cons] at h
    push_neg at h
    have hb : (k == a.1) = false := beq_eq_false_iff_ne.mpr h.1
    simp [List.lookup, hb, ih h.2]

/-- A document with no keyword match scores zero. -/
theorem keywordScore_eq_zero_of_no_match {q : String} {d : Document}
    (h : anyKeywordMatch q d = false) : keywordScore q d = 0 := by
  simp only [anyKeywordMatch, Bool.or_eq_false_iff] at h
  obtain ⟨⟨h1, h2⟩, h3⟩ := h
  simp [keywordScore, h1, h2, h3, pyAdd_eq]

/-- The keys of `keywordResults` come from the documents. -/
theorem keywordResults_keys_subset (q : String) (docs : List Document) :
    ((keywordResults q docs).map Prod.fst) ⊆ docs.map Document.id := by
  intro k hk
  simp only [keywordResults, List.map_map, List.mem_map] at hk
  obtain ⟨d, hd, rfl⟩ := hk
  exact List.mem_map.mpr ⟨d, List.mem_of_mem_filter hd, rfl⟩

/-- With distinct document ids, `keyword_results.get(d.id, 0)` is exactly
the keyword score of `d` — documents filtered out for having no match
default to 0, which is also their score. -/
theorem dictGet_keywordResults (q : String) (docs : List Document)
    (hNodup : (docs.map Document.id).Nodup) :
    ∀ d ∈ docs, dictGet (keywordResults q docs) d.id = keywordScore q d := by
  induction docs with
  | nil => intro d hd; cases hd
  | cons a t ih =>
    rw [List.map_cons, List.nodup_cons] at hNodup
    obtain ⟨ha, ht⟩ := hNodup
    intro d hd
    rcases List.mem_cons.mp hd with heq | hd
    · subst heq
      by_cases hm : anyKeywordMatch q d
      · simp [keywordResults, List.filter_cons, hm, dictGet, List.lookup]
      · rw [Bool.not_eq_true] at hm
        have hr : keywordResults q (d :: t) = keywordResults q t := by
          simp [keywordResults, List.filter_cons, hm]
        have hk : d.id ∉ (keywordResults q t).map Prod.fst := by
          intro hmem
          exact ha (keywordResults_keys_subset q t hmem)
        rw [hr, dictGet, lookup_eq_none_of_not_mem_keys hk, Option.getD_none,
          keywordScore_eq_zero_of_no_match hm]
    · have hne : d.id ≠ a.id := by
        intro he
        exact ha (he ▸ List.mem_map.mpr ⟨d, hd, rfl⟩)
      have hstep : dictGet (keywordResults q (a :: t)) d.id =
          dictGet (keywordResults q t) d.id := by
        by_cases hm : anyKeywordMatch q a
        · have hb : (d.id == a.id) = false := beq_eq_false_iff_ne.mpr hne
          simp [keywordResults, List.filter_cons, hm, dictGet, List.lookup, hb]
        · rw [Bool.not_eq_true] at hm
          simp [keywordResults, List.filter_cons, hm]
      rw [hstep]
      exact ih ht d hd

/-! ### Claim C1 -/

/-- C1: every vector similarity search carries the mandatory tenant filter,
so every candidate returned by `search_similar` has `organization_id` equal
to the requested tenant id, for every collection content, limit and score
threshold; a candidate of a different tenant is never returned. -/
theorem search_similar_tenant_isolation
    (points : List StoredPoint) (organization_id : String)
    (limit : Option Nat) (score_threshold : Option ℚ) :
    ∀ r ∈ search_similar points organization_id limit score_threshold,
      r.organization_id = organization_id := by
  intro r hr
  simp only [search_similar, List.mem_map] at hr
  obtain ⟨p, hp, rfl⟩ := hr
  have hp' : p ∈ points.filter fun q =>
      matchesFilter ⟨[⟨"organization_id", organization_id⟩]⟩ q &&
        decide (pyOrRat score_threshold similarity_threshold ≤ q.score) :=
    ((pySort_perm _ _).mem_iff).mp (List.mem_of_mem_take hp)
  have hcond := List.of_mem_filter hp'
  simp only [matchesFilter, List.all_cons, List.all_nil, payloadGet,
    Bool.and_true, Bool.and_eq_true, beq_iff_eq, Option.some.injEq,
    decide_eq_true_eq] at hcond
  exact hcond.1

/-- Witness for C1: a concrete index holding points of two tenants; the
search for tenant `o1` returns a candidate, and the theorem applies to it. -/
theorem search_similar_tenant_isolation_witness :
    (⟨mkRat 9 10, "d1", "o1", none⟩ : SearchResult) ∈
      search_similar
        [⟨mkRat 9 10, "d1", "o1", none⟩, ⟨mkRat 95 100, "d2", "o2", none⟩]
        "o1" (some 5) (some (mkRat 1 2)) ∧
    (⟨mkRat 9 10, "d1", "o1", none⟩ : SearchResult).organization_id = "o1" := by
  refine ⟨by decide, ?_⟩
  exact search_similar_tenant_isolation
    [⟨mkRat 9 10, "d1", "o1", none⟩, ⟨mkRat 95 100, "d2", "o2", none⟩]
    "o1" (some 5) (some (mkRat 1 2)) ⟨mkRat 9 10, "d1", "o1", none⟩ (by decide)

/-! ### Claim C2 -/

/-- C2: in hybrid document search, every id in the union of the semantic and
keyword hit sets gets combined score
`semantic.get(id, 0) * semantic_weight + keyword.get(id, 0) * keyword_weight`;
with distinct document ids, a document's keyword entry is its keyword score
(0.5 for a title match, plus 0.3 for a summary match, plus 0.2 for a content
match); and every possible keyword score lies in
{0, 0.2, 0.3, 0.5, 0.7, 0.8, 1.0}, never exceeding 1. -/
theorem hybrid_combined_score_formula
    (user_documents : List Document) (semantic_results : List (String × ℚ))
    (query : String) (semantic_weight keyword_weight : ℚ)
    (hNodup : (user_documents.map Document.id).Nodup) :
    (∀ doc_id ∈ allDocIds semantic_results
        (keywordResults (pyLower query) user_documents),
      dictGet (combinedScores semantic_results
          (keywordResults (pyLower query) user_documents)
          semantic_weight keyword_weight) doc_id
        = dictGet semantic_results doc_id * semantic_weight
          + dictGet (keywordResults (pyLower query) user_documents) doc_id
            * keyword_weight) ∧
    (∀ d ∈ user_documents,
      dictGet (keywordResults (pyLower query) user_documents) d.id
        = keywordScore (pyLower query) d) ∧
    (∀ d : Document, keywordScore (pyLower query) d ∈
        ({0, 1/5, 3/10, 1/2, 7/10, 4/5, 1} : Set ℚ) ∧
      keywordScore (pyLower query) d ≤ 1) := by
  refine ⟨?_, dictGet_keywordResults _ _ hNodup, ?_⟩
  · intro doc_id hmem
    rw [combinedScores, dictGet, lookup_map_self, if_pos hmem,
      Option.getD_some, pyAdd_eq, pyMul_eq, pyMul_eq]
  · intro d
    have h : keywordScore (pyLower query) d =
        (if fieldMatch (pyLower query) d.title then (1/2 : ℚ) else 0) +
        (if fieldMatch (pyLower query) d.summary then (3/10 : ℚ) else 0) +
        (if fieldMatch (pyLower query) d.content then (1/5 : ℚ) else 0) := by
      rw [keywordScore, pyAdd_eq, pyAdd_eq, pyAdd_eq]
      norm_num [Rat.mkRat_eq_div]
    rw [h]
    rcases fieldMatch (pyLower query) d.title with _ | _ <;>
      rcases fieldMatch (pyLower query) d.summary with _ | _ <;>
      rcases fieldMatch (pyLower query) d.content with _ | _ <;>
      norm_num [Set.mem_insert_iff]

/-- Witness for C2: one semantic hit and one keyword-matching document; the
theorem applies and yields the formula at the keyword-matched id. -/
theorem hybrid_combined_score_formula_witness :
    dictGet (combinedScores [("s1", mkRat 9 10)]
        (keywordResults (pyLower "hello")
          [⟨"a", "o1", true, some "hello world", none, none⟩])
        (mkRat 7 10) (mkRat 3 10)) "a"
      = dictGet [("s1", mkRat 9 10)] "a" * mkRat 7 10
        + dictGet (keywordResults (pyLower "hello")
            [⟨"a", "o1", true, some "hello world", none, none⟩]) "a"
          * mkRat 3 10 :=
  (hybrid_combined_score_formula
    [⟨"a", "o1", true, some "hello world", none, none⟩]
    [("s1", mkRat 9 10)] "hello" (mkRat 7 10) (mkRat 3 10) (by decide)).1
    "a" (by decide)

/-! ### Claim C3 -/

/-- Every entry of the `combined_scores` dict carries the weighted-sum value
of its id. -/
theorem combinedScores_snd (semantic keyword : List (String × ℚ))
    (sw kw : ℚ) :
    ∀ p ∈ combinedScores semantic keyword sw kw,
      p.2 = dictGet semantic p.1 * sw + dictGet keyword p.1 * kw := by
  intro p hp
  simp only [combinedScores, List.mem_map] at hp
  obtain ⟨i, _, rfl⟩ := hp
  simp [pyAdd_eq, pyMul_eq]

/-- C3 (amended): the hybrid search output is sorted by non-increasing
combined score (stable sort: equal scores keep traversal order, with no
id-based tiebreak), contains only ids of supplied user documents whose
combined score is at least `min_score`, and is truncated to `limit`.  The
original claim's "contains exactly the ids with score ≥ min" and "ties
broken by id ascending" fail; see the counterexample. -/
theorem hybrid_search_documents_ranking
    (user_documents : List Document) (semantic_results : List (String × ℚ))
    (query : String) (lim : Nat)
    (min_score semantic_weight keyword_weight : ℚ) :
    (hybrid_search_documents user_documents semantic_results query lim
        min_score semantic_weight keyword_weight).Pairwise
      (fun i j =>
        dictGet semantic_results j * semantic_weight +
            dictGet (keywordResults (pyLower query) user_documents) j *
              keyword_weight ≤
          dictGet semantic_results i * semantic_weight +
            dictGet (keywordResults (pyLower query) user_documents) i *
              keyword_weight) ∧
    (∀ i ∈ hybrid_search_documents user_documents semantic_results query lim
        min_score semantic_weight keyword_weight,
      (min_score ≤
        dictGet semantic_results i * semantic_weight +
          dictGet (keywordResults (pyLower query) user_documents) i *
            keyword_weight) ∧
      ∃ d ∈ user_documents, d.id = i) ∧
    (hybrid_search_documents user_documents semantic_results query lim
        min_score semantic_weight keyword_weight).length ≤ lim := by
  by_cases hempty : user_documents.isEmpty
  · simp [hybrid_search_documents, hempty]
  · have hout : hybrid_search_documents user_documents semantic_results query
        lim min_score semantic_weight keyword_weight =
        (((pySort (fun a b => decide (b.2 ≤ a.2))
            ((combinedScores semantic_results
              (keywordResults (pyLower query) user_documents)
              semantic_weight keyword_weight).filter
                fun p => decide (min_score ≤ p.2))).map Prod.fst).filter
          fun i => user_documents.any fun d => d.id == i).take lim := by
      rw [hybrid_search_documents, if_neg hempty]
    set kwres := keywordResults (pyLower query) user_documents with hkw
    set combined := combinedScores semantic_results kwres semantic_weight
      keyword_weight with hcomb
    set filtered := combined.filter fun p => decide (min_score ≤ p.2)
      with hfil
    set sorted := pySort (fun a b => decide (b.2 ≤ a.2)) filtered with hsort
    have hsnd : ∀ p ∈ sorted,
        p.2 = dictGet semantic_results p.1 * semantic_weight +
          dictGet kwres p.1 * keyword_weight := by
      intro p hp
      exact combinedScores_snd _ _ _ _ p
        (List.mem_of_mem_filter ((pySort_perm _ _).mem_iff.mp hp))
    refine ⟨?_, ?_, ?_⟩
    · rw [hout]
      have hpw : sorted.Pairwise
          fun x y => (decide ((y.2 : ℚ) ≤ x.2)) = true := by
        refine pySort_pairwise ?_ ?_ filtered
        · intro a b
          rcases le_total b.2 a.2 with h | h <;> simp [h]
        · intro a b c h1 h2
          simp only [decide_eq_true_eq] at h1 h2 ⊢
          exact le_trans h2 h1
      have hpw2 : sorted.Pairwise fun x y =>
          dictGet semantic_results y.1 * semantic_weight +
              dictGet kwres y.1 * keyword_weight ≤
            dictGet semantic_results x.1 * semantic_weight +
              dictGet kwres x.1 * keyword_weight := by
        refine hpw.imp_of_mem ?_
        intro x y hx hy h
        rw [← hsnd x hx, ← hsnd y hy]
        exact of_decide_eq_true h
      have hpw3 : (sorted.map Prod.fst).Pairwise fun i j =>
          dictGet semantic_results j * semantic_weight +
              dictGet kwres j * keyword_weight ≤
            dictGet semantic_results i * semantic_weight +
              dictGet kwres i * keyword_weight := List.pairwise_map.mpr hpw2
      have hpw4 := hpw3.sublist
        (List.filter_sublist (l := sorted.map Prod.fst)
          (p := fun i => user_documents.any fun d => d.id == i))
      exact hpw4.sublist (List.take_sublist _ _)
    · intro i hi
      rw [hout] at hi
      have h1 := List.mem_of_mem_take hi
      have h2 := List.of_mem_filter h1
      have h3 := List.mem_of_mem_filter h1
      obtain ⟨p, hp, rfl⟩ := List.mem_map.mp h3
      have hpf : p ∈ filtered := (pySort_perm _ _).mem_iff.mp hp
      have hmin := List.of_mem_filter hpf
      rw [decide_eq_true_eq] at hmin
      refine ⟨by rw [← hsnd p hp]; exact hmin, ?_⟩
      obtain ⟨d, hd, hdi⟩ := List.any_eq_true.mp h2
      exact ⟨d, hd, by simpa using hdi⟩
    · rw [hout]
      exact List.length_take_le _ _

/-- Witness for C3 (amended): on a concrete tied run, the theorem applies
to the output member `"b"`, giving its score bound and document
membership. -/
theorem hybrid_search_documents_ranking_witness :
    ((0 : ℚ) ≤ dictGet [] "b" * mkRat 7 10 +
      dictGet (keywordResults (pyLower "hello")
        [⟨"b", "o1", true, some "hello", none, none⟩,
          ⟨"a", "o1", true, some "hello", none, none⟩]) "b" * mkRat 3 10) ∧
    ∃ d ∈ [(⟨"b", "o1", true, some "hello", none, none⟩ : Document),
        ⟨"a", "o1", true, some "hello", none, none⟩], d.id = "b" :=
  (hybrid_search_documents_ranking
    [⟨"b", "o1", true, some "hello", none, none⟩,
      ⟨"a", "o1", true, some "hello", none, none⟩]
    [] "hello" 10 0 (mkRat 7 10) (mkRat 3 10)).2.1 "b" (by decide)

/-- Counterexample for C3: two active documents `"b"` and `"a"` (in that
stored order) that tie on combined score.  The output lists `"b"` before
`"a"` although `"a" < "b"` — there is no id-ascending tiebreak — and with
`limit = 1` the id `"a"`, whose combined score meets `min_score`, is absent,
so the output does not contain exactly the ids scoring at least
`min_score`. -/
theorem hybrid_search_documents_tiebreak_counterexample :
    hybrid_search_documents
        [⟨"b", "o1", true, some "hello", none, none⟩,
          ⟨"a", "o1", true, some "hello", none, none⟩]
        [] "hello" 10 0 (mkRat 7 10) (mkRat 3 10) = ["b", "a"] ∧
    hybrid_search_documents
        [⟨"b", "o1", true, some "hello", none, none⟩,
          ⟨"a", "o1", true, some "hello", none, none⟩]
        [] "hello" 1 0 (mkRat 7 10) (mkRat 3 10) = ["b"] ∧
    dictGet (combinedScores []
        (keywordResults (pyLower "hello")
          [⟨"b", "o1", true, some "hello", none, none⟩,
            ⟨"a", "o1", true, some "hello", none, none⟩])
        (mkRat 7 10) (mkRat 3 10)) "a"
      = dictGet (combinedScores []
          (keywordResults (pyLower "hello")
            [⟨"b", "o1", true, some "hello", none, none⟩,
              ⟨"a", "o1", true, some "hello", none, none⟩])
          (mkRat 7 10) (mkRat 3 10)) "b" ∧
    (0 : ℚ) ≤ dictGet (combinedScores []
        (keywordResults (pyLower "hello")
          [⟨"b", "o1", true, some "hello", none, none⟩,
            ⟨"a", "o1", true, some "hello", none, none⟩])
        (mkRat 7 10) (mkRat 3 10)) "a" ∧
    ("a" : String).data < ("b" : String).data := by
  refine ⟨by decide, by decide, by decide, by decide, by decide⟩

/-! ### Retrieval membership helpers -/

theorem pyTake_length (s : String) (n : Nat) :
    (pyTake s n).length = min n s.length := by
  show (s.data.take n).length = min n s.data.length
  rw [List.length_take]

/-- Every context document built by `retrieve_document_context` comes from
an active document of the organization in the store, and copies its id,
title (with the `"Untitled"` default) and 200-character preview. -/
theorem mem_retrieve_document_context
    {query_embedding : List ℚ} {points : List StoredPoint}
    {db : List Document} {organization_id : String} {lim : Nat}
    {thr : ℚ} {cd : ContextDocument}
    (h : cd ∈ (retrieve_document_context query_embedding points db
      organization_id lim thr).1) :
    ∃ d ∈ db, cd.id = d.id ∧ cd.title = pyOrStr d.title "Untitled" ∧
      cd.preview = pyPreview d.content ∧
      d.organization_id = organization_id ∧ d.is_active = true := by
  rw [retrieve_document_context] at h
  split at h
  · cases h
  · dsimp only [] at h
    split at h
    · cases h
    · obtain ⟨p, hp, rfl⟩ := List.mem_map.mp h
      obtain ⟨r, _, hfm⟩ := List.mem_filterMap.mp hp
      obtain ⟨d, hfind, hpd⟩ := Option.map_eq_some'.mp hfm
      have hd := List.mem_of_find?_eq_some hfind
      have hmem := (List.mem_filter.mp hd).1
      have hcond := (List.mem_filter.mp hd).2
      simp only [Bool.and_eq_true, beq_iff_eq] at hcond
      subst hpd
      exact ⟨d, hmem, rfl, rfl, rfl, hcond.1.2, hcond.2⟩

/-- Every context message built by `retrieve_conversation_context` comes
from a stored message (copied verbatim, content untruncated) whose
conversation exists and belongs to the requesting user. -/
theorem mem_retrieve_conversation_context
    {query_embedding : List ℚ} {points : List StoredPoint}
    {msgDb : List Message} {convDb : List Conversation}
    {conversation_id : Option String} {user_id organization_id : String}
    {lim : Nat} {thr : ℚ} {cm : ContextMessage}
    (h : cm ∈ (retrieve_conversation_context query_embedding points msgDb
      convDb conversation_id user_id organization_id lim thr).1) :
    ∃ m ∈ msgDb, cm.id = m.id ∧ cm.conversation_id = m.conversation_id ∧
      cm.role = m.role ∧ cm.content = m.content ∧
      ∃ c ∈ convDb, c.id = m.conversation_id ∧ c.user_id = user_id := by
  rw [retrieve_conversation_context] at h
  split at h
  · cases h
  · dsimp only [] at h
    split at h
    · cases h
    · obtain ⟨p, hp, rfl⟩ := List.mem_map.mp h
      obtain ⟨r, _, hfm⟩ := List.mem_filterMap.mp hp
      obtain ⟨m, hfind, hpd⟩ := Option.map_eq_some'.mp hfm
      have hm := List.mem_of_find?_eq_some hfind
      obtain ⟨mid, _, hbind⟩ := List.mem_filterMap.mp hm
      obtain ⟨m0, hfind0, hmap0⟩ := Option.bind_eq_some.mp hbind
      obtain ⟨c, hfindc, hcm⟩ := Option.map_eq_some'.mp hmap0
      have hm0 := List.mem_of_find?_eq_some hfind0
      have hc := List.mem_of_find?_eq_some hfindc
      have hcond := List.find?_some hfindc
      simp only [Bool.and_eq_true, beq_iff_eq] at hcond
      subst hcm
      subst hpd
      exact ⟨m0, hm0, rfl, rfl, rfl, rfl, c, hc, hcond.1, hcond.2⟩

/-! ### Claim C4 -/

/-- C4 (amended): in the prompt assembled by the full-RAG endpoint, every
selected document contributes the snippet `"Document: " ++ title ++ "\n" ++
preview`, where the preview is the first 200 characters of the stored
content (length exactly 200 whenever the content is at least that long) —
not a configurable `max_doc_chars_per_item` defaulting to 500 — and every
selected message contributes `ROLE ++ ": " ++ content` with the full,
untruncated message content, not 300 characters.  The 500- and
300-character context texts built inside the retrieval helpers are
discarded by the endpoint. -/
theorem full_rag_snippet_truncation
    (query_embedding : List ℚ) (docPoints msgPoints : List StoredPoint)
    (docDb : List Document) (msgDb : List Message)
    (convDb : List Conversation) (conversation_id : Option String)
    (user_id organization_id : String) (dlim mlim : Nat) (thr : ℚ) :
    (∀ cd ∈ (retrieve_document_context query_embedding docPoints docDb
        organization_id dlim thr).1,
      ∃ d ∈ docDb, cd.id = d.id ∧ cd.preview = pyPreview d.content ∧
        (∀ s, d.content = some s → 200 ≤ s.length →
          cd.preview.length = 200) ∧
        fullRagDocSnippet cd = "Document: " ++ cd.title ++ "\n" ++
          cd.preview) ∧
    (∀ cm ∈ (retrieve_conversation_context query_embedding msgPoints msgDb
        convDb conversation_id user_id organization_id mlim thr).1,
      ∃ m ∈ msgDb, cm.id = m.id ∧ cm.content = m.content ∧
        fullRagMsgSnippet cm = pyUpper cm.role ++ ": " ++ m.content) := by
  constructor
  · intro cd hcd
    obtain ⟨d, hd, hid, _, hprev, _, _⟩ := mem_retrieve_document_context hcd
    refine ⟨d, hd, hid, hprev, ?_, rfl⟩
    intro s hs hlen
    rw [hprev, hs, pyPreview]
    have hne : s.isEmpty = false := by
      rcases hempty : s.isEmpty with _ | _
      · rfl
      · exfalso
        rw [String.isEmpty_iff] at hempty
        subst hempty
        simp at hlen
    rw [hne]
    simp only [Bool.false_eq_true, if_false, pyTake_length]
    omega
  · intro cm hcm
    obtain ⟨m, hm, hid, _, hrole, hcontent, _⟩ :=
      mem_retrieve_conversation_context hcm
    exact ⟨m, hm, hid, hcontent, by rw [fullRagMsgSnippet, hcontent]⟩

/-- Witness for C4 (amended): a concrete retrieval with one document and
one message; the theorem applies to both retrieved items. -/
theorem full_rag_snippet_truncation_witness :
    (∃ d ∈ [(⟨"d1", "o1", true, some "T", none, some "hello"⟩ : Document)],
      (⟨"d1", "T", "hello", mkRat 9 10⟩ : ContextDocument).id = d.id ∧
      (⟨"d1", "T", "hello", mkRat 9 10⟩ : ContextDocument).preview =
        pyPreview d.content ∧
      (∀ s, d.content = some s → 200 ≤ s.length →
        (⟨"d1", "T", "hello", mkRat 9 10⟩ : ContextDocument).preview.length
          = 200) ∧
      fullRagDocSnippet ⟨"d1", "T", "hello", mkRat 9 10⟩ =
        "Document: " ++ "T" ++ "\n" ++ "hello") :=
  (full_rag_snippet_truncation [mkRat 1 1] [⟨mkRat 9 10, "d1", "o1", none⟩]
    [] [⟨"d1", "o1", true, some "T", none, some "hello"⟩] [] [] none "u1"
    "o1" 5 10 (mkRat 1 2)).1 ⟨"d1", "T", "hello", mkRat 9 10⟩ (by decide)

set_option maxRecDepth 100000 in
/-- Counterexample for C4: a document whose content has 600 characters
yields a snippet content portion of length 200, not 500; a message of 400
characters is included in full, so its snippet is 406 characters long
instead of being capped at 300 content characters (306 with the `"USER: "`
prefix). -/
theorem full_rag_snippet_truncation_counterexample :
    ((retrieve_document_context [mkRat 1 1] [⟨mkRat 9 10, "d1", "o1", none⟩]
        [⟨"d1", "o1", true, some "T", none,
          some (String.mk (List.replicate 600 'x'))⟩]
        "o1" 5 (mkRat 1 2)).1.map fun cd => cd.preview.length) = [200] ∧
    ¬ (200 = 500) ∧
    ((retrieve_conversation_context [mkRat 1 1]
        [⟨mkRat 9 10, "m1", "o1", none⟩]
        [⟨"m1", "c1", "user", String.mk (List.replicate 400 'y')⟩]
        [⟨"c1", "u1"⟩] none "u1" "o1" 10 (mkRat 1 2)).1.map
          fun cm => (fullRagMsgSnippet cm).length) = [406] ∧
    ¬ (406 ≤ 306) := by
  refine ⟨by decide, by decide, by decide, by decide⟩

/-! ### Claim C5 -/

/-- C5: when both the retrieved document list and the retrieved message
list are empty, the full-RAG prompt-enhancement step leaves the base system
prompt unchanged — no headers, no generic preamble. -/
theorem assemble_empty_context_identity (base : Option String) (inc : Bool) :
    assembleFullRagPrompt [] [] base inc = base := by
  simp [assembleFullRagPrompt]

/-! ### Claim C7 -/

/-- C7: when the query embedding comes back empty (blank query or provider
failure), both retrieval helpers return an empty candidate list and empty
context text without error, and the full-RAG endpoint proceeds to
generation with the base prompt unchanged and reports
`context_used = false`. -/
theorem empty_embedding_degrades_gracefully
    (provider : String → List ℚ) (user_input : String)
    (hq : embed_text provider user_input = [])
    (docPoints msgPoints : List StoredPoint) (docDb : List Document)
    (msgDb : List Message) (convDb : List Conversation)
    (conversation_id : Option String) (user_id organization_id : String)
    (system_prompt : Option String) (inc : Bool) (dlim mlim : Nat) (thr : ℚ)
    (rd rc : Bool) (generate : Option String → GenResult) :
    retrieve_document_context (embed_text provider user_input) docPoints
      docDb organization_id dlim thr = ([], "") ∧
    retrieve_conversation_context (embed_text provider user_input) msgPoints
      msgDb convDb conversation_id user_id organization_id mlim thr
      = ([], "") ∧
    execute_agent_with_full_rag rd rc provider user_input docPoints
      msgPoints docDb msgDb convDb conversation_id user_id organization_id
      system_prompt inc dlim mlim thr generate =
      (if (generate system_prompt).success then
        Except.ok ⟨(generate system_prompt).response, [], [], false⟩
      else Except.error ⟨400, (generate system_prompt).error⟩) := by
  refine ⟨?_, ?_, ?_⟩
  · rw [hq, retrieve_document_context]
    simp
  · rw [hq, retrieve_conversation_context]
    simp
  · rw [execute_agent_with_full_rag, hq]
    cases rd <;> cases rc <;>
      simp [retrieve_document_context, retrieve_conversation_context,
        assembleFullRagPrompt]

/-- Witness for C7: a provider that is down (always returns the empty
vector); document retrieval for a non-blank query returns the empty
sequence. -/
theorem empty_embedding_degrades_gracefully_witness :
    retrieve_document_context (embed_text (fun _ => []) "q")
      [⟨mkRat 9 10, "d1", "o1", none⟩]
      [⟨"d1", "o1", true, some "T", none, some "hello"⟩] "o1" 5
      (mkRat 7 10) = ([], "") :=
  (empty_embedding_degrades_gracefully (fun _ => []) "q" (by decide)
    [⟨mkRat 9 10, "d1", "o1", none⟩] []
    [⟨"d1", "o1", true, some "T", none, some "hello"⟩] [] [] none "u1" "o1"
    none true 5 10 (mkRat 7 10) true true (fun _ => ⟨true, "ok", ""⟩)).1

/-! ### Claim C9 -/

/-- C9: every message included in the conversation RAG context belongs to a
conversation owned by the requesting user — a candidate whose conversation
is missing or has a different `user_id` is dropped — for every query
embedding, index content, tenant and conversation filter. -/
theorem conversation_context_user_ownership
    (query_embedding : List ℚ) (points : List StoredPoint)
    (msgDb : List Message) (convDb : List Conversation)
    (conversation_id : Option String) (user_id organization_id : String)
    (lim : Nat) (thr : ℚ) :
    ∀ cm ∈ (retrieve_conversation_context query_embedding points msgDb
      convDb conversation_id user_id organization_id lim thr).1,
      ∃ m ∈ msgDb, m.id = cm.id ∧
        ∃ c ∈ convDb, c.id = m.conversation_id ∧ c.user_id = user_id := by
  intro cm hcm
  obtain ⟨m, hm, hid, _, _, _, c, hc, hcid, hcu⟩ :=
    mem_retrieve_conversation_context hcm
  exact ⟨m, hm, hid.symm, c, hc, hcid, hcu⟩

/-- Witness for C9: a search hit resolving to a message whose conversation
is owned by the requesting user `u1`; the theorem applies to the retrieved
context message. -/
theorem conversation_context_user_ownership_witness :
    ∃ m ∈ [(⟨"m1", "c1", "user", "hi"⟩ : Message)],
      m.id = (⟨"m1", "c1", "user", "hi", mkRat 9 10⟩ : ContextMessage).id ∧
      ∃ c ∈ [(⟨"c1", "u1"⟩ : Conversation)],
        c.id = m.conversation_id ∧ c.user_id = "u1" :=
  conversation_context_user_ownership [mkRat 1 1]
    [⟨mkRat 9 10, "m1", "o1", none⟩] [⟨"m1", "c1", "user", "hi"⟩]
    [⟨"c1", "u1"⟩] none "u1" "o1" 10 (mkRat 1 2)
    ⟨"m1", "c1", "user", "hi", mkRat 9 10⟩ (by decide)

/-! ### Claim C6 -/

/-- C6 (amended): when the LLM generation step fails, the full-RAG endpoint
surfaces a fatal `HTTPException(400, error)` to the caller — but the error
payload carries only the status code and the generator's error message; the
retrieved document and message lists are not included in it.  (The original
claim that the error payload still contains the retrieved lists fails; see
the counterexample.) -/
theorem generation_failure_surfaces_error
    (rd rc : Bool) (provider : String → List ℚ) (user_input : String)
    (docPoints msgPoints : List StoredPoint) (docDb : List Document)
    (msgDb : List Message) (convDb : List Conversation)
    (conversation_id : Option String) (user_id organization_id : String)
    (system_prompt : Option String) (inc : Bool) (dlim mlim : Nat) (thr : ℚ)
    (generate : Option String → GenResult) (resp err : String)
    (hgen : ∀ p, generate p = ⟨false, resp, err⟩) :
    execute_agent_with_full_rag rd rc provider user_input docPoints
      msgPoints docDb msgDb convDb conversation_id user_id organization_id
      system_prompt inc dlim mlim thr generate =
      Except.error ⟨400, err⟩ := by
  rw [execute_agent_with_full_rag]
  simp [hgen]

/-- Witness for C6 (amended): a generator that always fails with `"boom"`;
the endpoint returns exactly `HTTPException(400, "boom")`. -/
theorem generation_failure_surfaces_error_witness :
    execute_agent_with_full_rag true true (fun _ => [mkRat 1 1]) "q"
      [⟨mkRat 9 10, "d1", "o1", none⟩] []
      [⟨"d1", "o1", true, some "T", none, some "C"⟩] [] [] none "u1" "o1"
      none true 5 10 (mkRat 1 2) (fun _ => ⟨false, "", "boom"⟩) =
      Except.error ⟨400, "boom"⟩ :=
  generation_failure_surfaces_error true true (fun _ => [mkRat 1 1]) "q"
    [⟨mkRat 9 10, "d1", "o1", none⟩] []
    [⟨"d1", "o1", true, some "T", none, some "C"⟩] [] [] none "u1" "o1"
    none true 5 10 (mkRat 1 2) (fun _ => ⟨false, "", "boom"⟩) "" "boom"
    (fun _ => rfl)

/-- Counterexample for C6: two runs with the same failing generator, one of
which retrieved a document while the other retrieved nothing, produce
byte-identical error results — the error payload carries no information
about the retrieved document or message lists, so those lists are not
included in it. -/
theorem generation_failure_payload_counterexample :
    execute_agent_with_full_rag true true (fun _ => [mkRat 1 1]) "q"
      [⟨mkRat 9 10, "d1", "o1", none⟩] []
      [⟨"d1", "o1", true, some "T", none, some "C"⟩] [] [] none "u1" "o1"
      none true 5 10 (mkRat 1 2) (fun _ => ⟨false, "", "boom"⟩) =
      Except.error ⟨400, "boom"⟩ ∧
    execute_agent_with_full_rag false false (fun _ => [mkRat 1 1]) "q"
      [⟨mkRat 9 10, "d1", "o1", none⟩] []
      [⟨"d1", "o1", true, some "T", none, some "C"⟩] [] [] none "u1" "o1"
      none true 5 10 (mkRat 1 2) (fun _ => ⟨false, "", "boom"⟩) =
      Except.error ⟨400, "boom"⟩ ∧
    (retrieve_document_context (embed_text (fun _ => [mkRat 1 1]) "q")
      [⟨mkRat 9 10, "d1", "o1", none⟩]
      [⟨"d1", "o1", true, some "T", none, some "C"⟩] "o1" 5
      (mkRat 1 2)).1 ≠ [] := by
  refine ⟨by decide, by decide, by decide⟩

/-! ### Claim C8 -/

/-- A `≤`-sorted list that is a permutation of a strictly sorted list equals
it (sorting by a duplicate-free key is deterministic). -/
theorem sorted_perm_eq_of_strict {β : Type _} :
    ∀ {c s : List (Nat × β)}, s.Perm c →
      (s.Pairwise fun a b => a.1 ≤ b.1) →
      (c.Pairwise fun a b => a.1 < b.1) → s = c := by
  intro c
  induction c with
  | nil =>
    intro s hp _ _
    exact hp.eq_nil
  | cons x c' ih =>
    intro s hp hs hc
    cases s with
    | nil => exact absurd hp.symm.eq_nil (List.cons_ne_nil x c')
    | cons y s' =>
      have hyx : y = x := by
        by_contra hne
        have hy : y ∈ x :: c' := hp.mem_iff.mp (List.mem_cons_self y s')
        have hy' : y ∈ c' := by
          rcases List.mem_cons.mp hy with h | h
          · exact absurd h hne
          · exact h
        have hxy : x.1 < y.1 := (List.pairwise_cons.mp hc).1 y hy'
        have hx : x ∈ y :: s' := hp.mem_iff.mpr (List.mem_cons_self x c')
        have hx' : x ∈ s' := by
          rcases List.mem_cons.mp hx with h | h
          · exact absurd h.symm hne
          · exact h
        have hyx' : y.1 ≤ x.1 := (List.pairwise_cons.mp hs).1 x hx'
        exact absurd hxy (not_lt.mpr hyx')
      subst hyx
      have hp' : s'.Perm c' := hp.cons_inv
      rw [ih hp' (List.pairwise_cons.mp hs).2 (List.pairwise_cons.mp hc).2]

/-- C8 (amended): for every list of non-blank input texts, batch embedding
returns one vector per input in input order — `output[i]` is the embedding
of `input[i]` — for every order in which the provider returns its
(index, embedding) items, because the code re-sorts them by index.  (The
original claim fails for inputs containing blank texts, which are filtered
out before the provider call; see the counterexample.) -/
theorem embed_texts_preserves_order
    (texts : List String) (f : String → List ℚ)
    (provider_response : List String → List (Nat × List ℚ))
    (hne : texts ≠ [])
    (hall : ∀ t ∈ texts, (!t.isEmpty && !(pyStrip t).isEmpty) = true)
    (hresp : (provider_response texts).Perm
      (texts.enum.map fun p => (p.1, f p.2))) :
    embed_texts provider_response texts = texts.map f := by
  have hvalid : (texts.filter fun t => !t.isEmpty && !(pyStrip t).isEmpty)
      = texts := List.filter_eq_self.mpr hall
  have hEmpty : texts.isEmpty = false := by
    cases texts with
    | nil => exact absurd rfl hne
    | cons a t => rfl
  rw [embed_texts]
  simp only [hEmpty, Bool.false_eq_true, if_false, hvalid]
  rw [generate_embeddings]
  have htot : ∀ a b : Nat × List ℚ,
      (decide (a.1 ≤ b.1) || decide (b.1 ≤ a.1)) = true := by
    intro a b
    rcases Nat.le_total a.1 b.1 with h | h <;> simp [h]
  have htrans : ∀ a b c : Nat × List ℚ, decide (a.1 ≤ b.1) = true →
      decide (b.1 ≤ c.1) = true → decide (a.1 ≤ c.1) = true := by
    intro a b c h1 h2
    rw [decide_eq_true_eq] at h1 h2 ⊢
    omega
  have hsorted : (pySort (fun a b => decide (a.1 ≤ b.1))
      (provider_response texts)).Pairwise fun a b => a.1 ≤ b.1 :=
    (pySort_pairwise htot htrans (provider_response texts)).imp
      fun h => of_decide_eq_true h
  have hperm : (pySort (fun a b => decide (a.1 ≤ b.1))
      (provider_response texts)).Perm
      (texts.enum.map fun p => (p.1, f p.2)) :=
    (pySort_perm _ _).trans hresp
  have hcpair : (texts.enum.map fun p => (p.1, f p.2)).Pairwise
      fun a b => a.1 < b.1 := by
    have h1 : (texts.enum.map Prod.fst).Pairwise fun a b => a < b := by
      rw [List.enum_map_fst]
      exact List.pairwise_lt_range _
    have h2 : texts.enum.Pairwise fun a b => a.1 < b.1 :=
      List.pairwise_map.mp h1
    exact List.pairwise_map.mpr h2
  rw [sorted_perm_eq_of_strict hperm hsorted hcpair, List.map_map]
  have hcomp : (Prod.snd ∘ fun p : Nat × String => (p.1, f p.2)) =
      f ∘ Prod.snd := rfl
  rw [hcomp, ← List.map_map, List.enum_map_snd]

/-- Witness for C8 (amended): a provider returning its items in reversed
order; the service still returns the embeddings in input order. -/
theorem embed_texts_preserves_order_witness :
    embed_texts
      (fun ts => (ts.enum.map fun p => (p.1, [mkRat p.2.length 1])).reverse)
      ["a", "bb"] = (["a", "bb"].map fun t => [mkRat t.length 1]) :=
  embed_texts_preserves_order ["a", "bb"] (fun t => [mkRat t.length 1])
    (fun ts => (ts.enum.map fun p => (p.1, [mkRat p.2.length 1])).reverse)
    (by decide) (by decide) (List.reverse_perm _)

/-- Counterexample for C8: with a blank first input, the output has one
vector while the input has two texts, so `output[i]` cannot correspond to
`input[i]` — blank texts are silently dropped. -/
theorem embed_texts_input_correspondence_counterexample :
    embed_texts (fun ts => ts.enum.map fun p => (p.1, [mkRat p.2.length 1]))
      ["", "a"] = [[mkRat 1 1]] ∧
    ¬ ([[mkRat 1 1]] : List (List ℚ)).length =
      (["", "a"] : List String).length := by
  refine ⟨by decide, by decide⟩

/-! ### Claim C10 -/

/-- C10 (amended): with an empty query embedding, neither standalone search
endpoint performs a vector index search, and both fail with an explicit
error.  `vector_search` re-raises the `HTTPException(400, "Failed to
generate query embedding")` unchanged; `semantic_search_documents` raises
the same exception inside its `try` block, but its own `except Exception`
handler wraps it, so the caller receives status 500 with detail
`"Semantic search failed: 400: Failed to generate query embedding"` rather
than the bare detail.  (The original claim that both endpoints fail with
detail exactly `'Failed to generate query embedding'` fails at the
document semantic-search endpoint; see the counterexample.) -/
theorem empty_embedding_search_endpoints
    (points : List StoredPoint) (db : List Document)
    (organization_id : String) (lim : Nat) (min_score : ℚ)
    (lim2 : Option Nat) (thr2 : Option ℚ) :
    vector_search [] points organization_id lim2 thr2 =
      (Except.error ⟨400, "Failed to generate query embedding"⟩, 0) ∧
    semantic_search_documents [] points db organization_id lim min_score =
      (Except.error ⟨500,
        "Semantic search failed: 400: Failed to generate query embedding"⟩,
        0) := by
  constructor
  · rw [vector_search]
    simp
  · rw [semantic_search_documents]
    simp only [List.isEmpty_nil, if_true]
    decide

/-- Counterexample for C10: at the document semantic-search endpoint an
empty embedding yields status 500 with a wrapped detail string, not the
bare `'Failed to generate query embedding'` (though no index search is
performed). -/
theorem semantic_search_wrapped_error_counterexample :
    semantic_search_documents [] [] [] "o1" 10 (mkRat 7 10) =
      (Except.error ⟨500,
        "Semantic search failed: 400: Failed to generate query embedding"⟩,
        0) ∧
    ¬ ("Semantic search failed: 400: Failed to generate query embedding" =
      "Failed to generate query embedding") ∧
    ¬ ((semantic_search_documents [] [] [] "o1" 10 (mkRat 7 10)).1 =
      Except.error ⟨400, "Failed to generate query embedding"⟩) := by
  refine ⟨by decide, by decide, by decide⟩

end Tarento
